import Mathlib

/-!
Shallow embedding of the multi-tenant-platform API route guards
(src/api/src/routes/tenants.ts, users.ts, competitions.ts and the
competition-allowed-schools routes, plus
src/api/src/middleware/auth.middleware.ts) and proofs about the
access-control decisions they implement.

Each Fastify route's preValidation/preHandler chain is modelled as a pure
function from the caller identity, the route parameters, the (parsed)
request body and the current store state to a `Decision`; the supabase
queries (`.eq(...).single()`, `.eq(...)` filters) are modelled as lookups
and filters over lists held in a `Store`.
-/

namespace MultiTenant

/-- Roles carried in the JWT user metadata (`student | school_admin | superuser`). -/
inductive Role where
  | student
  | school_admin
  | superuser
deriving DecidableEq, Repr

/-- Competition visibility enum (`public | private | restricted`). -/
inductive Visibility where
  | publicV
  | privateV
  | restrictedV
deriving DecidableEq, Repr

/-- A row of the `tenants` table. -/
structure Tenant where
  id : String
  name : String
deriving DecidableEq, Repr

/-- A row of the `users` table. -/
structure UserRow where
  id : String
  email : String
  tenant_id : String
  role : Role
deriving DecidableEq, Repr

/-- A row of the `competitions` table. -/
structure Competition where
  id : String
  title : String
  visibility : Visibility
  tenant_id : String
deriving DecidableEq, Repr

/-- A row of the `competition_allowed_schools` table: the grant
(competition_id, school_id). -/
structure AllowedSchool where
  competition_id : String
  school_id : String
deriving DecidableEq, Repr

/-- The authenticated caller attached to the request by the auth plugin
(`request.user`): id, tenant_id, role. -/
structure Caller where
  id : String
  tenant_id : String
  role : Role
deriving DecidableEq, Repr

/-- The backing data store (the four supabase tables). -/
structure Store where
  tenants : List Tenant
  users : List UserRow
  competitions : List Competition
  allowed_schools : List AllowedSchool
deriving DecidableEq, Repr

/-- Outcome of a route guard: let the request through to the main
handler, or reply 403 with a message. -/
inductive Decision where
  | allow
  | deny (msg : String)
deriving DecidableEq, Repr

/-- Outcome of a whole route (guards plus main handler) as surfaced to
the caller. -/
inductive Outcome where
  | ok
  | forbidden (msg : String)
  | notFound
deriving DecidableEq, Repr

/-- `supabase.from('competitions').select(...).eq('id', id).single()`. -/
def findCompetition (st : Store) (id : String) : Option Competition :=
  st.competitions.find? (fun c => c.id = id)

/-- `supabase.from('users').select(...).eq('id', id).single()`. -/
def findUser (st : Store) (id : String) : Option UserRow :=
  st.users.find? (fun u => u.id = id)

/-- `supabase.from('competition_allowed_schools').select(...)
.eq('competition_id', cid).eq('school_id', sid).single()`. -/
def findAllowed (st : Store) (cid sid : String) : Option AllowedSchool :=
  st.allowed_schools.find? (fun a => a.competition_id = cid ∧ a.school_id = sid)

/-- The `requireRole` middleware factory (auth.middleware.ts): 403 unless
the caller's role is in the allowed list. -/
def requireRole (allowedRoles : List Role) (c : Caller) : Decision :=
  if c.role ∈ allowedRoles then .allow
  else .deny "Insufficient permissions"

/-- The check half of the `enforceTenantId` middleware
(auth.middleware.ts): superusers skip it; otherwise a `tenantId` found in
the request params/query must match the caller's tenant. -/
def enforceTenantIdCheck (c : Caller) (requestTenantId : Option String) : Decision :=
  if c.role = .superuser then .allow
  else
    match requestTenantId with
    | some t => if t ≠ c.tenant_id then .deny "Access denied: tenant mismatch" else .allow
    | none => .allow

/-- The body-mutation half of `enforceTenantId`: for non-GET requests by
a non-superuser the middleware overwrites `body.tenant_id` with the
caller's tenant_id — but only when a parsed body object is present
(`if (request.body && typeof request.body === 'object')`). It therefore
takes effect only where the middleware runs after body parsing (the
preHandler registrations on POST/PUT /competitions, after their
preValidation decisions); on the users router it is registered at
onRequest, before Fastify parses the body, so there it is a no-op. -/
def enforceTenantIdBody (c : Caller) (isGet : Bool) (hasParsedBody : Bool)
    (bodyTenantId : Option String) : Option String :=
  if c.role = .superuser then bodyTenantId
  else if isGet then bodyTenantId
  else if hasParsedBody then some c.tenant_id
  else bodyTenantId

/-- GET /tenants/:id preHandler: superuser, or the caller's own tenant. -/
def getTenantPre (c : Caller) (id : String) : Decision :=
  if c.role = .superuser then .allow
  else if id = c.tenant_id then .allow
  else .deny "Access denied: Cannot view other tenants"

/-- GET /users/:id preHandler: own profile, or school_admin over a
same-tenant user, or superuser. -/
def getUserPre (c : Caller) (targetId : String) (st : Store) : Decision :=
  if targetId = c.id then .allow
  else if c.role = .school_admin ∧
      (findUser st targetId).map (fun u => u.tenant_id) = some c.tenant_id then .allow
  else if c.role = .superuser then .allow
  else .deny "Insufficient permissions"

/-- Parsed body of POST /users (email, tenant_id, role all required by
the route schema). -/
structure UserCreateBody where
  email : String
  tenant_id : String
  role : Role
deriving DecidableEq, Repr

/-- POST /users preHandler: school_admin only within own tenant and never
creating a superuser; only superusers create superusers. -/
def postUserPre (c : Caller) (body : UserCreateBody) : Decision :=
  if c.role = .school_admin ∧ body.tenant_id ≠ c.tenant_id then
    .deny "Cannot create users for other tenants"
  else if c.role = .school_admin ∧ body.role = .superuser then
    .deny "Cannot create superuser accounts"
  else if body.role = .superuser ∧ c.role ≠ .superuser then
    .deny "Only superusers can create superuser accounts"
  else .allow

/-- Parsed body of PUT /users/:id (all fields optional). -/
structure UserUpdateBody where
  email : Option String
  tenant_id : Option String
  role : Option Role
deriving DecidableEq, Repr

/-- PUT /users/:id preHandler, exactly as written in users.ts: the
self-update branch; then the school_admin branch (whose three denials
return early but which otherwise falls through); then the final
`role !== 'superuser'` check, which a school_admin also reaches. -/
def putUserPre (c : Caller) (targetId : String) (body : UserUpdateBody) (st : Store) : Decision :=
  if targetId = c.id then
    if body.role.isSome ∨ body.tenant_id.isSome then
      .deny "Cannot change your own role or tenant"
    else .allow
  else
    match
      (if c.role = .school_admin then
        match findUser st targetId with
        | none => some (Decision.deny "Cannot update users from other tenants")
        | some u =>
          if u.tenant_id ≠ c.tenant_id then
            some (Decision.deny "Cannot update users from other tenants")
          else if u.role = .superuser ∨ body.role = some .superuser then
            some (Decision.deny "Cannot update superuser accounts")
          else if body.tenant_id.any (fun t => t ≠ c.tenant_id) then
            some (Decision.deny "Cannot change tenant_id to another tenant")
          else none
      else none) with
    | some d => d
    | none =>
      if c.role ≠ .superuser then .deny "Insufficient permissions"
      else .allow

/-- The whole decision pipeline of PUT /users/:id: the users router
installs `enforceTenantId` as an onRequest hook, which runs before
Fastify parses the body — so the hook's body rewrite is a no-op there
(`request.body` is still undefined, and the middleware guards the
mutation with `if (request.body && ...)`) and only its params/query
tenant check applies; this route exposes an `id` param but no
`tenantId`, so that check passes too. The route preHandler then runs on
the parsed body as the client sent it. -/
def putUserRouteDecision (c : Caller) (targetId : String) (body : UserUpdateBody) (st : Store) : Decision :=
  match enforceTenantIdCheck c none with
  | .deny m => .deny m
  | .allow => putUserPre c targetId body st

/-- PUT /users/:id outcome: guard chain, then the main handler
(`update ... .eq('id', id).single()`, which 404s via PGRST116 when the
row is absent). -/
def putUserOutcome (c : Caller) (targetId : String) (body : UserUpdateBody) (st : Store) : Outcome :=
  match putUserRouteDecision c targetId body st with
  | .deny m => .forbidden m
  | .allow =>
    match findUser st targetId with
    | some _ => .ok
    | none => .notFound

/-- DELETE /users/:id preHandler: self-delete always denied first; then
the school_admin branch; then (else-if) the final superuser check. -/
def deleteUserPre (c : Caller) (targetId : String) (st : Store) : Decision :=
  if targetId = c.id then .deny "Cannot delete your own account"
  else if c.role = .school_admin then
    match findUser st targetId with
    | none => .deny "Cannot delete users from other tenants"
    | some u =>
      if u.tenant_id ≠ c.tenant_id then .deny "Cannot delete users from other tenants"
      else if u.role = .superuser then .deny "Cannot delete superuser accounts"
      else .allow
  else if c.role ≠ .superuser then .deny "Insufficient permissions"
  else .allow

/-- GET /users/tenant/:tenantId preHandler: school_admin only for the own
tenant; students denied. -/
def getUsersByTenantPre (c : Caller) (tenantId : String) : Decision :=
  if c.role = .school_admin ∧ tenantId ≠ c.tenant_id then
    .deny "Access denied: tenant mismatch"
  else if c.role = .student then .deny "Insufficient permissions"
  else .allow

/-- The registered GET /competitions route (competitions.ts line 25): no
preHandler at all, the handler selects every competition row
unfiltered. The caller is taken as a parameter only because the route
runs behind authentication; it is never consulted. -/
def getAllCompetitionsRoute (c : Caller) (st : Store) : List Competition :=
  st.competitions

/-- GET /competitions/:id preHandler: superuser skip; missing competition
passes through (404 handled by the main handler); school_admin same
tenant; public; own tenant; restricted with a grant for the caller's
tenant; otherwise 403. -/
def getCompetitionPre (c : Caller) (id : String) (st : Store) : Decision :=
  if c.role = .superuser then .allow
  else
    match findCompetition st id with
    | none => .allow
    | some comp =>
      if c.role = .school_admin ∧ comp.tenant_id = c.tenant_id then .allow
      else if comp.visibility = .publicV then .allow
      else if comp.tenant_id = c.tenant_id then .allow
      else if comp.visibility = .restrictedV ∧ (findAllowed st id c.tenant_id).isSome then .allow
      else .deny "Access denied to this competition"

/-- GET /competitions/:id outcome: guard, then the main handler
(`.eq('id', id).single()`, 404 on PGRST116). -/
def getCompetitionOutcome (c : Caller) (id : String) (st : Store) : Outcome :=
  match getCompetitionPre c id st with
  | .deny m => .forbidden m
  | .allow =>
    match findCompetition st id with
    | some _ => .ok
    | none => .notFound

/-- Parsed body of POST /competitions (title and tenant_id required). -/
structure CompetitionCreateBody where
  title : String
  description : Option String
  visibility : Option Visibility
  tenant_id : String
deriving DecidableEq, Repr

/-- POST /competitions preValidation (runs before the enforceTenantId
preHandler): non-superusers may only name their own tenant, and only
school_admin or superuser may create. -/
def postCompetitionPreValidation (c : Caller) (body : CompetitionCreateBody) : Decision :=
  if c.role ≠ .superuser ∧ body.tenant_id ≠ c.tenant_id then
    .deny "Cannot create competitions for other tenants"
  else if c.role ≠ .school_admin ∧ c.role ≠ .superuser then
    .deny "Only school administrators can create competitions"
  else .allow

/-- Parsed body of PUT /competitions/:id (all fields optional). -/
structure CompetitionUpdateBody where
  title : Option String
  description : Option String
  visibility : Option Visibility
  tenant_id : Option String
deriving DecidableEq, Repr

/-- PUT /competitions/:id preValidation (runs before the enforceTenantId
preHandler): fetch the competition; missing passes through; school_admin
cross-tenant denied; students denied; a body tenant_id differing from the
stored one denied for everyone. -/
def putCompetitionPreValidation (c : Caller) (id : String) (body : CompetitionUpdateBody)
    (st : Store) : Decision :=
  match findCompetition st id with
  | none => .allow
  | some comp =>
    if c.role = .school_admin ∧ comp.tenant_id ≠ c.tenant_id then
      .deny "Cannot update competitions from other tenants"
    else if c.role = .student then
      .deny "Students cannot update competitions"
    else if body.tenant_id.any (fun t => t ≠ comp.tenant_id) then
      .deny "Cannot change the owner tenant of a competition"
    else .allow

/-- PUT /competitions/:id outcome: preValidation, then the
enforceTenantId preHandler (this route has no `tenantId` param, so its
check passes), then the main handler (`update ... .single()`, 404 on
PGRST116). -/
def putCompetitionOutcome (c : Caller) (id : String) (body : CompetitionUpdateBody)
    (st : Store) : Outcome :=
  match putCompetitionPreValidation c id body st with
  | .deny m => .forbidden m
  | .allow =>
    match enforceTenantIdCheck c none with
    | .deny m => .forbidden m
    | .allow =>
      match findCompetition st id with
      | some _ => .ok
      | none => .notFound

/-- DELETE /competitions/:id preHandler: superuser skip; missing passes
through; school_admin cross-tenant denied; students denied. -/
def deleteCompetitionPre (c : Caller) (id : String) (st : Store) : Decision :=
  if c.role = .superuser then .allow
  else
    match findCompetition st id with
    | none => .allow
    | some comp =>
      if c.role = .school_admin ∧ comp.tenant_id ≠ c.tenant_id then
        .deny "Cannot delete competitions from other tenants"
      else if c.role = .student then
        .deny "Students cannot delete competitions"
      else .allow

/-- GET /competitions/tenant/:tenantId preHandler: superusers skip; for
school_admin and student the tenant-mismatch denials are commented out in
the source ("TEMPORARILY BYPASSED FOR DEBUGGING"), so the guard falls
through and allows every caller. -/
def getCompetitionsByTenantPre (c : Caller) (tenantId : String) : Decision :=
  if c.role = .superuser then .allow
  else .allow

/-- GET /competition-allowed-schools/competition/:competitionId
preHandler: superuser skip; missing competition passes through;
school_admin owning the competition; restricted with a grant for the
caller's tenant; public; own tenant; otherwise 403. -/
def getAllowedSchoolsByCompetitionPre (c : Caller) (competitionId : String)
    (st : Store) : Decision :=
  if c.role = .superuser then .allow
  else
    match findCompetition st competitionId with
    | none => .allow
    | some comp =>
      if c.role = .school_admin ∧ comp.tenant_id = c.tenant_id then .allow
      else if comp.visibility = .restrictedV ∧
          (findAllowed st competitionId c.tenant_id).isSome then .allow
      else if comp.visibility = .publicV then .allow
      else if comp.tenant_id = c.tenant_id then .allow
      else .deny "Access denied"

/-- GET /competition-allowed-schools/school/:schoolId preHandler:
superusers skip; for everyone else the tenant-mismatch denial is
commented out in the source ("TEMPORARILY BYPASSED FOR DEBUGGING"), so
the guard allows every caller. -/
def getSchoolCompetitionsPre (c : Caller) (schoolId : String) : Decision :=
  if c.role = .superuser then .allow
  else .allow

/-- One step of the JS `new Map(list.map(c => [c.id, c]))` construction:
an entry with an already-present key replaces the stored value in place,
a fresh key is appended. -/
def jsMapInsert (acc : List Competition) (c : Competition) : List Competition :=
  if acc.any (fun d => d.id = c.id) then
    acc.map (fun d => if d.id = c.id then c else d)
  else acc ++ [c]

/-- Fold of `jsMapInsert` over the input list. -/
def jsMapDedupAux (acc : List Competition) : List Competition → List Competition
  | [] => acc
  | c :: rest => jsMapDedupAux (jsMapInsert acc c) rest

/-- `Array.from(new Map(list.map(comp => [comp.id, comp])).values())`:
deduplication by competition id, keeping first-insertion order. -/
def jsMapDedup (l : List Competition) : List Competition :=
  jsMapDedupAux [] l

/-- The GET /competition-allowed-schools/school/:schoolId main handler
(tenants.ts lines 402-494): all public competitions, plus competitions
of the requested tenant with visibility restricted, plus (when the
tenant has any grants) the granted competitions of other tenants;
concatenated and deduplicated by id via a JS Map. -/
def schoolAccessibleCompetitions (schoolId : String) (st : Store) : List Competition :=
  let publicCompetitions := st.competitions.filter (fun c => c.visibility = .publicV)
  let ownedRestrictedCompetitions :=
    st.competitions.filter (fun c => c.tenant_id = schoolId ∧ c.visibility = .restrictedV)
  let allowedSchools := st.allowed_schools.filter (fun g => g.school_id = schoolId)
  let allowedCompetitions :=
    if allowedSchools.length > 0 then
      let competitionIds := allowedSchools.map (fun g => g.competition_id)
      st.competitions.filter (fun c => c.id ∈ competitionIds ∧ c.tenant_id ≠ schoolId)
    else []
  jsMapDedup (publicCompetitions ++ ownedRestrictedCompetitions ++ allowedCompetitions)

/-- Grant body of POST /competition-allowed-schools (both fields required
by the route schema). -/
abbrev GrantBody := AllowedSchool

/-- `update({ visibility: 'restricted' }).eq('id', cid)` on the
competitions table. -/
def setVisibilityRestricted (st : Store) (cid : String) : Store :=
  { st with competitions :=
      st.competitions.map (fun c =>
        if c.id = cid then { c with visibility := .restrictedV } else c) }

/-- `insert({ competition_id, school_id })` on the
competition_allowed_schools table. -/
def insertGrant (st : Store) (g : AllowedSchool) : Store :=
  { st with allowed_schools := st.allowed_schools ++ [g] }

/-- POST /competition-allowed-schools preHandler plus its side effect:
superusers pass with no side effect; school_admins pass only for their
own competition and additionally flip that competition's visibility to
restricted; everyone else is denied. Returns the decision together with
the store as left by the guard. -/
def postAllowedSchoolPre (c : Caller) (body : GrantBody) (st : Store) : Decision × Store :=
  if c.role = .superuser then (.allow, st)
  else if c.role = .school_admin then
    match findCompetition st body.competition_id with
    | none =>
      (.deny "Cannot manage allowed schools for competitions from other tenants", st)
    | some comp =>
      if comp.tenant_id ≠ c.tenant_id then
        (.deny "Cannot manage allowed schools for competitions from other tenants", st)
      else (.allow, setVisibilityRestricted st body.competition_id)
  else (.deny "Only school administrators can manage competition visibility", st)

/-- The whole POST /competition-allowed-schools operation: the guard with
its visibility side effect, then (when allowed) the main handler's grant
insertion. -/
def postAllowedSchool (c : Caller) (body : GrantBody) (st : Store) : Decision × Store :=
  match postAllowedSchoolPre c body st with
  | (.allow, st1) => (.allow, insertGrant st1 body)
  | (d, st1) => (d, st1)

/-- DELETE /competition-allowed-schools/:competitionId/:schoolId
preHandler: superuser; school_admin owning the competition (a missing
competition is denied by the combined `!competition || ...` check);
everyone else denied. -/
def deleteAllowedSchoolPre (c : Caller) (competitionId : String) (st : Store) : Decision :=
  if c.role = .superuser then .allow
  else if c.role = .school_admin then
    match findCompetition st competitionId with
    | none => .deny "Cannot manage allowed schools for competitions from other tenants"
    | some comp =>
      if comp.tenant_id ≠ c.tenant_id then
        .deny "Cannot manage allowed schools for competitions from other tenants"
      else .allow
  else .deny "Only school administrators can manage competition visibility"

/-- Competition ids of a list of competitions. -/
def compIds (l : List Competition) : List String :=
  l.map (fun c => c.id)

/-- A concrete superuser caller, for witnesses. -/
def suCaller : Caller := ⟨"su-1", "tenant-S", .superuser⟩

/-- A concrete school_admin caller of tenant-A, for witnesses. -/
def saCaller : Caller := ⟨"sa-1", "tenant-A", .school_admin⟩

/-- A concrete student caller of tenant-A, for witnesses. -/
def stuCaller : Caller := ⟨"stu-1", "tenant-A", .student⟩

/-- A concrete student row of tenant-A, for witnesses. -/
def demoUser : UserRow := ⟨"user-7", "u7@example.com", "tenant-A", .student⟩

/-- A concrete public competition of tenant-B, for witnesses. -/
def demoPublicComp : Competition := ⟨"comp-pub", "Open Cup", .publicV, "tenant-B"⟩

/-- A concrete private competition of tenant-A, for witnesses and
counterexamples. -/
def demoPrivateComp : Competition := ⟨"comp-priv", "Private Cup", .privateV, "tenant-A"⟩

/-- A concrete store holding the demo rows. -/
def demoStore : Store :=
  ⟨[⟨"tenant-A", "School A"⟩, ⟨"tenant-B", "School B"⟩],
   [demoUser],
   [demoPublicComp, demoPrivateComp],
   []⟩

/-- The empty store, for missing-target scenarios. -/
def emptyStore : Store := ⟨[], [], [], []⟩

/-- A PUT /users/:id body with no fields set. -/
def emptyUserUpdate : UserUpdateBody := ⟨none, none, none⟩

/-- A PUT /competitions/:id body with no fields set. -/
def emptyCompetitionUpdate : CompetitionUpdateBody := ⟨none, none, none, none⟩

end MultiTenant

namespace MultiTenant

/-- C7: the registered GET /competitions route consults neither the
caller's role nor tenant: every authenticated caller receives the full
unfiltered competitions table, private and restricted rows of other
tenants included. -/
theorem get_all_competitions_caller_independent (c c₂ : Caller) (st : Store) :
    getAllCompetitionsRoute c st = getAllCompetitionsRoute c₂ st ∧
    getAllCompetitionsRoute c st = st.competitions :=
  ⟨rfl, rfl⟩

/-- Helper shared by several results: a self-targeted PUT /users/:id
whose body sets role or tenant_id is denied, whatever the caller's
role; the enforceTenantId onRequest hook never touches the offending
fields (its body rewrite is a no-op before parsing). -/
theorem putUser_self_set_denied (c : Caller) (body : UserUpdateBody) (st : Store)
    (h : body.role.isSome ∨ body.tenant_id.isSome) :
    putUserRouteDecision c c.id body st = .deny "Cannot change your own role or tenant" := by
  unfold putUserRouteDecision enforceTenantIdCheck putUserPre
  rcases h with h | h <;>
    by_cases hc : c.role = Role.superuser <;>
      simp [hc, h]

/-- C8: a self-update whose body sets the role field or the tenant_id
field is denied, whatever else the body holds, for every caller. -/
theorem self_update_role_tenant_denied (c : Caller) (body : UserUpdateBody) (st : Store)
    (h : body.role.isSome ∨ body.tenant_id.isSome) :
    putUserRouteDecision c c.id body st = .deny "Cannot change your own role or tenant" :=
  putUser_self_set_denied c body st h

/-- Witness for C8: the student of tenant-A self-updating with a role
field set is denied. -/
theorem self_update_role_tenant_denied_witness :
    putUserRouteDecision stuCaller stuCaller.id ⟨none, none, some .student⟩ emptyStore =
      .deny "Cannot change your own role or tenant" :=
  self_update_role_tenant_denied stuCaller ⟨none, none, some .student⟩ emptyStore
    (Or.inl rfl)

/-- C9: read_one of an existing competition with visibility public
succeeds for every authenticated caller, of any role and tenant. -/
theorem public_competition_read_allowed (c : Caller) (id : String) (st : Store)
    (comp : Competition) (hfind : findCompetition st id = some comp)
    (hvis : comp.visibility = .publicV) :
    getCompetitionOutcome c id st = .ok := by
  unfold getCompetitionOutcome getCompetitionPre
  by_cases hc : c.role = Role.superuser
  · simp [hc, hfind]
  · rw [hfind]
    simp only [hc, if_false]
    by_cases hsa : c.role = Role.school_admin ∧ comp.tenant_id = c.tenant_id <;>
      simp [hsa, hvis, hfind]

/-- Witness for C9: the student of tenant-A reads the public competition
of tenant-B. -/
theorem public_competition_read_allowed_witness :
    getCompetitionOutcome stuCaller "comp-pub" demoStore = .ok :=
  public_competition_read_allowed stuCaller "comp-pub" demoStore demoPublicComp rfl rfl

/-- C10: an update request on an existing competition whose body sets
tenant_id to a value different from the stored one is denied for every
caller role (the preValidation hook sees the body before enforceTenantId
rewrites it). -/
theorem competition_tenant_id_immutable (c : Caller) (id : String)
    (body : CompetitionUpdateBody) (st : Store) (comp : Competition) (t : String)
    (hfind : findCompetition st id = some comp) (hbody : body.tenant_id = some t)
    (ht : t ≠ comp.tenant_id) :
    ∃ msg, putCompetitionPreValidation c id body st = .deny msg := by
  unfold putCompetitionPreValidation
  simp only [hfind]
  split_ifs with h1 h2 h3
  · exact ⟨_, rfl⟩
  · exact ⟨_, rfl⟩
  · exact ⟨_, rfl⟩
  · exact absurd (by simp [hbody, ht]) h3

/-- Witness for C10: the superuser attempting to move the tenant-A
private competition to tenant-B is denied. -/
theorem competition_tenant_id_immutable_witness :
    ∃ msg, putCompetitionPreValidation suCaller "comp-priv"
      ⟨none, none, none, some "tenant-B"⟩ demoStore = .deny msg :=
  competition_tenant_id_immutable suCaller "comp-priv"
    ⟨none, none, none, some "tenant-B"⟩ demoStore demoPrivateComp "tenant-B" rfl rfl
    (by decide)

/-- C4 (code bug): the PUT /users/:id preHandler's school_admin branch
never allows — for an update request within the claim's scope (existing
same-tenant non-superuser target, body not setting role=superuser and
not setting tenant_id to a different tenant) every early-return check of
the school_admin branch passes, and control then falls through to the
final `role !== 'superuser'` check (unlike DELETE /users/:id, which uses
`else if`), so the school_admin is denied with "Insufficient
permissions" instead of being allowed. -/
theorem school_admin_user_update_always_denied (c : Caller) (targetId : String)
    (body : UserUpdateBody) (st : Store) (u : UserRow)
    (hrole : c.role = .school_admin) (hne : targetId ≠ c.id)
    (hfind : findUser st targetId = some u)
    (hten : u.tenant_id = c.tenant_id) (hurole : u.role ≠ .superuser)
    (hbrole : body.role ≠ some .superuser)
    (hbten : ∀ t, body.tenant_id = some t → t = c.tenant_id) :
    putUserRouteDecision c targetId body st = .deny "Insufficient permissions" := by
  unfold putUserRouteDecision enforceTenantIdCheck putUserPre
  cases hbt : body.tenant_id with
  | none => simp [hrole, hne, hfind, hten, hurole, hbrole, hbt]
  | some t =>
    simp [hrole, hne, hfind, hten, hurole, hbrole, hbt, hbten t hbt]

/-- Witness for C4: the school_admin of tenant-A updating the email of
the existing tenant-A student is denied by the fall-through check. -/
theorem school_admin_user_update_always_denied_witness :
    putUserRouteDecision saCaller "user-7" ⟨some "new@example.com", none, none⟩ demoStore =
      .deny "Insufficient permissions" :=
  school_admin_user_update_always_denied saCaller "user-7"
    ⟨some "new@example.com", none, none⟩ demoStore demoUser rfl (by decide) rfl rfl
    (by decide) (by decide) (by intro t ht; cases ht)

/-- C6 (code bug): the tenant-mismatch denials of the two tenant-scoped
list endpoints (GET /competitions/tenant/:tenantId and GET
/competition-allowed-schools/school/:schoolId) are commented out in the
source, so a student of tenant-A requesting tenant-B's lists is let
through instead of being denied. -/
theorem tenant_mismatch_checks_bypassed :
    stuCaller.role ≠ Role.superuser ∧
    stuCaller.tenant_id ≠ "tenant-B" ∧
    getCompetitionsByTenantPre stuCaller "tenant-B" = .allow ∧
    getSchoolCompetitionsPre stuCaller "tenant-B" = .allow := by
  refine ⟨by decide, by decide, rfl, rfl⟩

/-- C1 (amended): a superuser caller is allowed by every route guard of
every entity and action, with exactly three exceptions where the code
denies even a superuser: a self-targeted user update whose body sets
role or tenant_id, deleting their own user account, and a competition
update whose body sets tenant_id to a value different from the stored
one. The conjunction walks every guard in the API. -/
theorem superuser_decisions (c : Caller) (h : c.role = Role.superuser) :
    (∀ roles, Role.superuser ∈ roles → requireRole roles c = .allow) ∧
    (∀ t, enforceTenantIdCheck c t = .allow) ∧
    (∀ id, getTenantPre c id = .allow) ∧
    (∀ id st, getUserPre c id st = .allow) ∧
    (∀ body, postUserPre c body = .allow) ∧
    (∀ targetId body st, targetId ≠ c.id →
      putUserRouteDecision c targetId body st = .allow) ∧
    (∀ body st, body.role = none → body.tenant_id = none →
      putUserRouteDecision c c.id body st = .allow) ∧
    (∀ body st, body.role.isSome ∨ body.tenant_id.isSome →
      putUserRouteDecision c c.id body st = .deny "Cannot change your own role or tenant") ∧
    (∀ targetId st, targetId ≠ c.id → deleteUserPre c targetId st = .allow) ∧
    (∀ st, deleteUserPre c c.id st = .deny "Cannot delete your own account") ∧
    (∀ t, getUsersByTenantPre c t = .allow) ∧
    (∀ id st, getCompetitionPre c id st = .allow) ∧
    (∀ body, postCompetitionPreValidation c body = .allow) ∧
    (∀ id body st, (∀ comp t, findCompetition st id = some comp →
        body.tenant_id = some t → t = comp.tenant_id) →
      putCompetitionPreValidation c id body st = .allow) ∧
    (∀ id body st comp t, findCompetition st id = some comp → body.tenant_id = some t →
      t ≠ comp.tenant_id →
      putCompetitionPreValidation c id body st =
        .deny "Cannot change the owner tenant of a competition") ∧
    (∀ id st, deleteCompetitionPre c id st = .allow) ∧
    (∀ t, getCompetitionsByTenantPre c t = .allow) ∧
    (∀ id st, getAllowedSchoolsByCompetitionPre c id st = .allow) ∧
    (∀ s, getSchoolCompetitionsPre c s = .allow) ∧
    (∀ body st, (postAllowedSchool c body st).1 = .allow) ∧
    (∀ id st, deleteAllowedSchoolPre c id st = .allow) := by
  refine ⟨?_, ?_, ?_, ?_, ?_, ?_, ?_, ?_, ?_, ?_, ?_, ?_, ?_, ?_, ?_, ?_, ?_, ?_, ?_,
    ?_, ?_⟩
  · intro roles hmem
    simp [requireRole, h, hmem]
  · intro t
    cases t <;> simp [enforceTenantIdCheck, h]
  · intro id
    simp [getTenantPre, h]
  · intro id st
    simp [getUserPre, h]
  · intro body
    simp [postUserPre, h]
  · intro targetId body st hne
    simp [putUserRouteDecision, enforceTenantIdCheck, putUserPre, h, hne]
  · intro body st hrole hten
    simp [putUserRouteDecision, enforceTenantIdCheck, putUserPre, h, hrole, hten]
  · intro body st hset
    exact putUser_self_set_denied c body st hset
  · intro targetId st hne
    simp [deleteUserPre, h, hne]
  · intro st
    simp [deleteUserPre]
  · intro t
    simp [getUsersByTenantPre, h]
  · intro id st
    simp [getCompetitionPre, h]
  · intro body
    simp [postCompetitionPreValidation, h]
  · intro id body st hcompat
    cases hfind : findCompetition st id with
    | none => simp [putCompetitionPreValidation, hfind]
    | some comp =>
      cases hbt : body.tenant_id with
      | none => simp [putCompetitionPreValidation, hfind, h, hbt]
      | some t =>
        simp [putCompetitionPreValidation, hfind, h, hbt, hcompat comp t hfind hbt]
  · intro id body st comp t hfind hbt hne
    simp [putCompetitionPreValidation, hfind, h, hbt, hne]
  · intro id st
    simp [deleteCompetitionPre, h]
  · intro t
    simp [getCompetitionsByTenantPre, h]
  · intro id st
    simp [getAllowedSchoolsByCompetitionPre, h]
  · intro s
    simp [getSchoolCompetitionsPre, h]
  · intro body st
    simp [postAllowedSchool, postAllowedSchoolPre, h]
  · intro id st
    simp [deleteAllowedSchoolPre, h]

/-- Counterexample for C1 as stated: a superuser deleting their own user
account is denied, not allowed. -/
theorem superuser_self_delete_denied :
    suCaller.role = Role.superuser ∧
    deleteUserPre suCaller suCaller.id emptyStore =
      .deny "Cannot delete your own account" :=
  ⟨rfl, rfl⟩

/-- Witness for C1 (amended): every conjunct of `superuser_decisions`
instantiated at the concrete superuser and the demo store. -/
theorem superuser_decisions_witness :
    requireRole [Role.superuser] suCaller = .allow ∧
    enforceTenantIdCheck suCaller (some "tenant-B") = .allow ∧
    getTenantPre suCaller "tenant-B" = .allow ∧
    getUserPre suCaller "user-7" demoStore = .allow ∧
    postUserPre suCaller ⟨"x@example.com", "tenant-B", .student⟩ = .allow ∧
    putUserRouteDecision suCaller "user-7" emptyUserUpdate demoStore = .allow ∧
    putUserRouteDecision suCaller suCaller.id emptyUserUpdate demoStore = .allow ∧
    putUserRouteDecision suCaller suCaller.id ⟨none, some "tenant-B", none⟩ demoStore =
      .deny "Cannot change your own role or tenant" ∧
    deleteUserPre suCaller "user-7" demoStore = .allow ∧
    deleteUserPre suCaller suCaller.id demoStore = .deny "Cannot delete your own account" ∧
    getUsersByTenantPre suCaller "tenant-B" = .allow ∧
    getCompetitionPre suCaller "comp-priv" demoStore = .allow ∧
    postCompetitionPreValidation suCaller ⟨"T", none, none, "tenant-B"⟩ = .allow ∧
    putCompetitionPreValidation suCaller "comp-priv" emptyCompetitionUpdate demoStore =
      .allow ∧
    putCompetitionPreValidation suCaller "comp-priv"
      ⟨none, none, none, some "tenant-B"⟩ demoStore =
      .deny "Cannot change the owner tenant of a competition" ∧
    deleteCompetitionPre suCaller "comp-priv" demoStore = .allow ∧
    getCompetitionsByTenantPre suCaller "tenant-A" = .allow ∧
    getAllowedSchoolsByCompetitionPre suCaller "comp-priv" demoStore = .allow ∧
    getSchoolCompetitionsPre suCaller "tenant-A" = .allow ∧
    (postAllowedSchool suCaller ⟨"comp-priv", "tenant-B"⟩ demoStore).1 = .allow ∧
    deleteAllowedSchoolPre suCaller "comp-priv" demoStore = .allow := by
  obtain ⟨h1, h2, h3, h4, h5, h6, h7, h8, h9, h10, h11, h12, h13, h14, h15, h16, h17,
    h18, h19, h20, h21⟩ := superuser_decisions suCaller rfl
  exact ⟨h1 _ (by decide), h2 _, h3 _, h4 _ _, h5 _, h6 _ _ _ (by decide),
    h7 _ _ rfl rfl, h8 _ _ (Or.inr rfl), h9 _ _ (by decide), h10 _, h11 _, h12 _ _,
    h13 _, h14 _ _ _ (by intro comp t hfind hbt; cases hbt),
    h15 _ _ _ demoPrivateComp "tenant-B" rfl rfl (by decide), h16 _ _, h17 _, h18 _ _,
    h19 _, h20 _ _, h21 _ _⟩

/-- Looking up a competition by id after `setVisibilityRestricted` on
that same id returns the stored row with its visibility overwritten. -/
theorem findCompetition_setVisibilityRestricted (st : Store) (cid : String) :
    findCompetition (setVisibilityRestricted st cid) cid =
      (findCompetition st cid).map (fun c => { c with visibility := .restrictedV }) := by
  unfold findCompetition setVisibilityRestricted
  induction st.competitions with
  | nil => rfl
  | cons c l ih =>
    by_cases hc : c.id = cid
    · simp [List.find?, hc]
    · simp only [List.map_cons, List.find?, hc, if_neg hc]
      simpa [hc] using ih

/-- C3 (amended): creating an AllowedSchool grant flips the referenced
competition's visibility to restricted only on the school_admin path;
the superuser path performs no visibility write, leaving every
competition row exactly as it was. -/
theorem grant_creation_visibility (c : Caller) (body : GrantBody) (st : Store) :
    (c.role = Role.school_admin → ∀ st1, postAllowedSchool c body st = (.allow, st1) →
      (findCompetition st1 body.competition_id).map (fun comp => comp.visibility) =
        some Visibility.restrictedV) ∧
    (c.role = Role.superuser →
      (postAllowedSchool c body st).2.competitions = st.competitions) := by
  constructor
  · intro hsa st1 hpost
    unfold postAllowedSchool postAllowedSchoolPre at hpost
    cases hfind : findCompetition st body.competition_id with
    | none => simp [hsa, hfind] at hpost
    | some comp =>
      by_cases hten : comp.tenant_id = c.tenant_id
      · simp [hsa, hfind, hten] at hpost
        have hst1 : st1 = insertGrant (setVisibilityRestricted st body.competition_id) body :=
          hpost.symm
        rw [hst1]
        have : findCompetition (insertGrant (setVisibilityRestricted st body.competition_id) body)
            body.competition_id =
            findCompetition (setVisibilityRestricted st body.competition_id)
              body.competition_id := rfl
        rw [this, findCompetition_setVisibilityRestricted, hfind]
        rfl
      · simp [hsa, hfind, hten] at hpost
  · intro hsu
    simp [postAllowedSchool, postAllowedSchoolPre, hsu, insertGrant]

/-- Counterexample for C3 as stated: a superuser creating a grant on the
public competition leaves its visibility public, not restricted. -/
theorem superuser_grant_keeps_visibility :
    suCaller.role = Role.superuser ∧
    (postAllowedSchool suCaller ⟨"comp-pub", "tenant-A"⟩ demoStore).1 = .allow ∧
    (findCompetition (postAllowedSchool suCaller ⟨"comp-pub", "tenant-A"⟩ demoStore).2
        "comp-pub").map (fun comp => comp.visibility) = some Visibility.publicV ∧
    Visibility.publicV ≠ Visibility.restrictedV := by
  refine ⟨rfl, rfl, ?_, by decide⟩
  rfl

/-- Witness for C3 (amended): the school_admin of tenant-A granting
tenant-B access to the private tenant-A competition leaves it
restricted, and the superuser grant on the public competition leaves
the competitions table unchanged. -/
theorem grant_creation_visibility_witness :
    (findCompetition
        (postAllowedSchool saCaller ⟨"comp-priv", "tenant-B"⟩ demoStore).2
        "comp-priv").map (fun comp => comp.visibility) = some Visibility.restrictedV ∧
    (postAllowedSchool suCaller ⟨"comp-pub", "tenant-A"⟩ demoStore).2.competitions =
      demoStore.competitions :=
  ⟨(grant_creation_visibility saCaller ⟨"comp-priv", "tenant-B"⟩ demoStore).1 rfl
      (postAllowedSchool saCaller ⟨"comp-priv", "tenant-B"⟩ demoStore).2 (by rfl),
    (grant_creation_visibility suCaller ⟨"comp-pub", "tenant-A"⟩ demoStore).2 rfl⟩

/-- C5 (amended): how a missing target surfaces differs by route and
role. For competitions, read_one and update pass the guard through and
the main handler yields 404 for every caller; a superuser's user update
on a missing target also yields 404. But the school_admin branches of
user update, user delete and grant creation reply 403 when the target
row is absent, conflating not-found with forbidden. -/
theorem missing_target_outcomes (c : Caller) (st : Store) :
    (∀ id, findCompetition st id = none → getCompetitionOutcome c id st = .notFound) ∧
    (∀ id body, findCompetition st id = none →
      putCompetitionOutcome c id body st = .notFound) ∧
    (∀ id body, c.role = .school_admin → id ≠ c.id → findUser st id = none →
      putUserRouteDecision c id body st =
        .deny "Cannot update users from other tenants") ∧
    (∀ id, c.role = .school_admin → id ≠ c.id → findUser st id = none →
      deleteUserPre c id st = .deny "Cannot delete users from other tenants") ∧
    (∀ body, c.role = .school_admin → findCompetition st body.competition_id = none →
      (postAllowedSchool c body st).1 =
        .deny "Cannot manage allowed schools for competitions from other tenants") ∧
    (∀ id body, c.role = .superuser → id ≠ c.id → findUser st id = none →
      putUserOutcome c id body st = .notFound) := by
  refine ⟨?_, ?_, ?_, ?_, ?_, ?_⟩
  · intro id hfind
    by_cases hc : c.role = Role.superuser <;>
      simp [getCompetitionOutcome, getCompetitionPre, hc, hfind]
  · intro id body hfind
    by_cases hc : c.role = Role.superuser <;>
      simp [putCompetitionOutcome, putCompetitionPreValidation, enforceTenantIdCheck,
        hc, hfind]
  · intro id body hsa hne hfind
    simp [putUserRouteDecision, enforceTenantIdCheck, putUserPre, hsa, hne, hfind]
  · intro id hsa hne hfind
    simp [deleteUserPre, hsa, hne, hfind]
  · intro body hsa hfind
    simp [postAllowedSchool, postAllowedSchoolPre, hsa, hfind]
  · intro id body hsu hne hfind
    simp [putUserOutcome, putUserRouteDecision, enforceTenantIdCheck, putUserPre,
      hsu, hne, hfind]

/-- Counterexample for C5 as stated: the school_admin updating a user id
absent from the store receives 403, not 404. -/
theorem missing_user_update_conflated :
    saCaller.role = Role.school_admin ∧
    findUser emptyStore "ghost-user" = none ∧
    putUserOutcome saCaller "ghost-user" emptyUserUpdate emptyStore =
      .forbidden "Cannot update users from other tenants" ∧
    putUserOutcome saCaller "ghost-user" emptyUserUpdate emptyStore ≠ .notFound :=
  ⟨rfl, rfl, rfl, by decide⟩

/-- Witness for C5 (amended): each conjunct instantiated at concrete
callers and the empty store, where every id is missing. -/
theorem missing_target_outcomes_witness :
    getCompetitionOutcome stuCaller "ghost-comp" emptyStore = .notFound ∧
    putCompetitionOutcome stuCaller "ghost-comp" emptyCompetitionUpdate emptyStore =
      .notFound ∧
    putUserRouteDecision saCaller "ghost-user" emptyUserUpdate emptyStore =
      .deny "Cannot update users from other tenants" ∧
    deleteUserPre saCaller "ghost-user" emptyStore =
      .deny "Cannot delete users from other tenants" ∧
    (postAllowedSchool saCaller ⟨"ghost-comp", "tenant-B"⟩ emptyStore).1 =
      .deny "Cannot manage allowed schools for competitions from other tenants" ∧
    putUserOutcome suCaller "ghost-user" emptyUserUpdate emptyStore = .notFound := by
  obtain ⟨h1, h2, h3, h4, h5, h6⟩ := missing_target_outcomes stuCaller emptyStore
  obtain ⟨g1, g2, g3, g4, g5, g6⟩ := missing_target_outcomes saCaller emptyStore
  obtain ⟨k1, k2, k3, k4, k5, k6⟩ := missing_target_outcomes suCaller emptyStore
  exact ⟨h1 _ rfl, h2 _ _ rfl, g3 _ _ rfl (by decide) rfl, g4 _ rfl (by decide) rfl,
    g5 _ rfl rfl, k6 _ _ rfl (by decide) rfl⟩

/-- Competition ids distribute over list append. -/
theorem compIds_append (a b : List Competition) :
    compIds (a ++ b) = compIds a ++ compIds b :=
  List.map_append _ a b

/-- The ids after a JS-Map insertion: replacing an existing key keeps
the id list unchanged, a fresh key appends its id. -/
theorem compIds_jsMapInsert (acc : List Competition) (c : Competition) :
    compIds (jsMapInsert acc c) =
      if c.id ∈ compIds acc then compIds acc else compIds acc ++ [c.id] := by
  have hiff : ((acc.any fun d => d.id = c.id) = true) ↔ c.id ∈ compIds acc := by
    rw [List.any_eq_true]
    simp only [compIds, List.mem_map, decide_eq_true_eq]
  unfold jsMapInsert
  by_cases h : (acc.any fun d => d.id = c.id) = true
  · rw [if_pos h, if_pos (hiff.1 h)]
    unfold compIds
    rw [List.map_map]
    refine List.map_congr_left ?_
    intro d _
    by_cases hd : d.id = c.id <;> simp [hd]
  · rw [if_neg h, if_neg (fun hm => h (hiff.2 hm))]
    unfold compIds
    simp

/-- Membership in the ids of the JS-Map fold: an id appears exactly when
it appears in the accumulator or in the remaining input. -/
theorem mem_compIds_jsMapDedupAux (l : List Competition) :
    ∀ acc i, i ∈ compIds (jsMapDedupAux acc l) ↔ i ∈ compIds acc ∨ i ∈ compIds l := by
  induction l with
  | nil =>
    intro acc i
    simp [jsMapDedupAux, compIds]
  | cons c rest ih =>
    intro acc i
    rw [jsMapDedupAux, ih, compIds_jsMapInsert]
    by_cases h : c.id ∈ compIds acc
    · rw [if_pos h]
      simp only [compIds, List.map_cons, List.mem_cons]
      constructor
      · rintro (ha | hr)
        · exact Or.inl ha
        · exact Or.inr (Or.inr hr)
      · rintro (ha | hc | hr)
        · exact Or.inl ha
        · exact Or.inl (hc ▸ h)
        · exact Or.inr hr
    · rw [if_neg h]
      simp only [compIds, List.map_cons, List.mem_cons, List.mem_append,
        List.mem_singleton]
      tauto

/-- The JS-Map fold never introduces a duplicate id. -/
theorem nodup_compIds_jsMapDedupAux (l : List Competition) :
    ∀ acc, (compIds acc).Nodup → (compIds (jsMapDedupAux acc l)).Nodup := by
  induction l with
  | nil =>
    intro acc h
    exact h
  | cons c rest ih =>
    intro acc h
    rw [jsMapDedupAux]
    apply ih
    rw [compIds_jsMapInsert]
    by_cases hc : c.id ∈ compIds acc
    · rwa [if_pos hc]
    · rw [if_neg hc]
      simp [List.nodup_append, h, hc]

/-- The deduplicated result carries no duplicate competition id. -/
theorem nodup_compIds_jsMapDedup (l : List Competition) :
    (compIds (jsMapDedup l)).Nodup :=
  nodup_compIds_jsMapDedupAux l [] (by simp [compIds])

/-- Deduplication preserves the set of competition ids. -/
theorem mem_compIds_jsMapDedup (l : List Competition) (i : String) :
    i ∈ compIds (jsMapDedup l) ↔ i ∈ compIds l := by
  rw [jsMapDedup, mem_compIds_jsMapDedupAux]
  simp [compIds]

/-- Membership in the ids of a filtered competition list. -/
theorem mem_compIds_filter (p : Competition → Bool) (l : List Competition) (i : String) :
    i ∈ compIds (l.filter p) ↔ ∃ comp, comp ∈ l ∧ comp.id = i ∧ p comp = true := by
  simp only [compIds, List.mem_map, List.mem_filter]
  tauto

/-- A competition id appears among the grants filtered for school A
exactly when some AllowedSchool row grants A that competition. -/
theorem mem_grant_competitionIds (A : String) (st : Store) (cid : String) :
    cid ∈ (st.allowed_schools.filter (fun g => g.school_id = A)).map
        (fun g => g.competition_id) ↔
      ∃ g, g ∈ st.allowed_schools ∧ g.school_id = A ∧ g.competition_id = cid := by
  simp only [List.mem_map, List.mem_filter, decide_eq_true_eq]
  tauto

/-- The let-expanded form of `schoolAccessibleCompetitions`. -/
theorem schoolAccessibleCompetitions_eq (A : String) (st : Store) :
    schoolAccessibleCompetitions A st =
      jsMapDedup
        (st.competitions.filter (fun c => c.visibility = Visibility.publicV) ++
         st.competitions.filter
           (fun c => c.tenant_id = A ∧ c.visibility = Visibility.restrictedV) ++
         (if (st.allowed_schools.filter (fun g => g.school_id = A)).length > 0 then
            st.competitions.filter (fun c =>
              c.id ∈ (st.allowed_schools.filter (fun g => g.school_id = A)).map
                  (fun g => g.competition_id) ∧ c.tenant_id ≠ A)
          else [])) :=
  rfl

/-- C2 (amended): for every tenant A and store, the per-school
"accessible competitions" result has no duplicate competition id, and
its id set equals the union of: public competitions of any tenant,
competitions OWNED BY A WITH VISIBILITY RESTRICTED (owned private and
owned non-public rows outside that are absent), and competitions of
other tenants for which an AllowedSchool grant names A. -/
theorem school_accessible_ids (A : String) (st : Store) :
    (compIds (schoolAccessibleCompetitions A st)).Nodup ∧
    ∀ i, i ∈ compIds (schoolAccessibleCompetitions A st) ↔
      ∃ comp, comp ∈ st.competitions ∧ comp.id = i ∧
        (comp.visibility = Visibility.publicV ∨
         (comp.tenant_id = A ∧ comp.visibility = Visibility.restrictedV) ∨
         (comp.tenant_id ≠ A ∧ ∃ g, g ∈ st.allowed_schools ∧
            g.school_id = A ∧ g.competition_id = comp.id)) := by
  rw [schoolAccessibleCompetitions_eq]
  refine ⟨nodup_compIds_jsMapDedup _, ?_⟩
  intro i
  rw [mem_compIds_jsMapDedup, compIds_append, compIds_append]
  simp only [List.mem_append, mem_compIds_filter, decide_eq_true_eq, or_assoc]
  by_cases hg : (st.allowed_schools.filter (fun g => g.school_id = A)).length > 0
  · rw [if_pos hg]
    rw [mem_compIds_filter]
    simp only [decide_eq_true_eq, mem_grant_competitionIds]
    constructor
    · rintro (⟨comp, h1, h2, h3⟩ | ⟨comp, h1, h2, h3⟩ | ⟨comp, h1, h2, h3, h4⟩)
      · exact ⟨comp, h1, h2, Or.inl h3⟩
      · exact ⟨comp, h1, h2, Or.inr (Or.inl h3)⟩
      · exact ⟨comp, h1, h2, Or.inr (Or.inr ⟨h4, h3⟩)⟩
    · rintro ⟨comp, h1, h2, (h3 | h3 | ⟨h3, h4⟩)⟩
      · exact Or.inl ⟨comp, h1, h2, h3⟩
      · exact Or.inr (Or.inl ⟨comp, h1, h2, h3⟩)
      · exact Or.inr (Or.inr ⟨comp, h1, h2, h4, h3⟩)
  · rw [if_neg hg]
    have hnog : ∀ g ∈ st.allowed_schools, ¬ g.school_id = A := by
      intro g hmem heq
      refine hg ?_
      have : g ∈ st.allowed_schools.filter (fun g => g.school_id = A) :=
        List.mem_filter.2 ⟨hmem, by simpa using heq⟩
      exact List.length_pos.2 (List.ne_nil_of_mem this)
    simp only [compIds, List.map_nil, List.not_mem_nil, or_false]
    constructor
    · rintro (⟨comp, h1, h2, h3⟩ | ⟨comp, h1, h2, h3⟩)
      · exact ⟨comp, h1, h2, Or.inl h3⟩
      · exact ⟨comp, h1, h2, Or.inr (Or.inl h3)⟩
    · rintro ⟨comp, h1, h2, (h3 | h3 | ⟨h3, g, hg1, hg2, hg3⟩)⟩
      · exact Or.inl ⟨comp, h1, h2, h3⟩
      · exact Or.inr ⟨comp, h1, h2, h3⟩
      · exact absurd hg2 (hnog g hg1)

/-- Counterexample for C2 as stated: a private competition owned by
tenant-A is absent from the per-school result for tenant-A, although
the claim's union includes every competition owned by A. -/
theorem school_accessible_misses_owned_private :
    demoPrivateComp ∈ demoStore.competitions ∧
    demoPrivateComp.tenant_id = "tenant-A" ∧
    demoPrivateComp.visibility = Visibility.privateV ∧
    demoPrivateComp.id ∉ compIds (schoolAccessibleCompetitions "tenant-A" demoStore) := by
  refine ⟨by simp [demoStore], rfl, rfl, ?_⟩
  decide

end MultiTenant
